import Mathlib

set_option maxRecDepth 8000

/-!
Verification of the Sheeter MCP server (src/index.ts) against its
natural-language specification.

The development shallowly embeds the TypeScript source: JSON values are the
inductive `JVal`, the JavaScript `undefined` that arises at property access
is `Option JVal` (`none` = undefined), and thrown exceptions are
`Except String`.  Each of the ten dispatcher branches of the
`CallToolRequestSchema` handler is translated into a Lean function of the
configuration, the network (a function from the built request to an HTTP
response), and the argument object; the outer try/catch of the handler is
`mkToolResult`.
-/

namespace Sheeter

/-- JSON values as delivered by `response.json()` and as tool arguments.
Numbers are modelled as integers (all fixtures and arguments in scope are
integral); `undefined` is not a `JVal` but an absent `Option JVal`. -/
inductive JVal where
  | null
  | bool (b : Bool)
  | num (n : Int)
  | str (s : String)
  | arr (elems : List JVal)
  | obj (fields : List (String × JVal))

/-- Property lookup in an object literal.  The objects built by the source
have pairwise-distinct keys, so first-match lookup agrees with JS. -/
def jlookup : List (String × JVal) → String → Option JVal
  | [], _ => none
  | (k, v) :: fs, key => if k = key then some v else jlookup fs key

/-- Plain property access `x.key` on a defined value: throws on `null`,
returns the field of an object, and `undefined` on other values. -/
def jfield : JVal → String → Except String (Option JVal)
  | .null, key => .error ("TypeError: Cannot read properties of null (reading " ++ key ++ ")")
  | .obj fs, key => .ok (jlookup fs key)
  | _, _ => .ok none

/-- Property access `x.key` where `x` may be `undefined`: throws on
`undefined`, otherwise behaves as `jfield`. -/
def jfieldO : Option JVal → String → Except String (Option JVal)
  | none, key => .error ("TypeError: Cannot read properties of undefined (reading " ++ key ++ ")")
  | some v, key => jfield v key

mutual

/-- JS string conversion (template-literal interpolation) of a defined
value: arrays join their elements with commas, objects print as
`[object Object]`. -/
def jshowV : JVal → String
  | .null => "null"
  | .bool b => if b then "true" else "false"
  | .num n => toString n
  | .str s => s
  | .arr xs => jshowArr xs
  | .obj _ => "[object Object]"
termination_by structural v => v

/-- `Array.prototype.toString`: elements joined with commas, with `null`
elements printed empty. -/
def jshowArr : List JVal → String
  | [] => ""
  | [.null] => ""
  | [v] => jshowV v
  | .null :: vs => "," ++ jshowArr vs
  | v :: vs => jshowV v ++ "," ++ jshowArr vs
termination_by structural l => l

end

/-- Conversion of one element inside `Array.prototype.join`: `null` prints
as the empty string. -/
def jshowElem : JVal → String
  | .null => ""
  | v => jshowV v

/-- Template-literal interpolation of a possibly-undefined value. -/
def jshowO : Option JVal → String
  | none => "undefined"
  | some v => jshowV v

/-- Optional-chained length access `x?.length`: `undefined` for absent,
`null`, or length-less values; the element count for arrays and the
character count for strings. -/
def jsLenOpt : Option JVal → Option Nat
  | some (.arr xs) => some xs.length
  | some (.str s) => some s.length
  | _ => none

/-- Plain length access `x.length`: throws on `undefined` and `null`,
otherwise as `jsLenOpt`. -/
def jsLength : Option JVal → Except String (Option Nat)
  | none => .error "TypeError: Cannot read properties of undefined (reading length)"
  | some .null => .error "TypeError: Cannot read properties of null (reading length)"
  | some (.arr xs) => .ok (some xs.length)
  | some (.str s) => .ok (some s.length)
  | some _ => .ok none

/-- Interpolation of a possibly-undefined length. -/
def showON : Option Nat → String
  | none => "undefined"
  | some n => toString n

/-- Method call `x.toString()`: throws on `undefined` and `null`, otherwise
agrees with string conversion. -/
def jsToString : Option JVal → Except String String
  | none => .error "TypeError: Cannot read properties of undefined (reading toString)"
  | some .null => .error "TypeError: Cannot read properties of null (reading toString)"
  | some v => .ok (jshowV v)

/-- JS `ToNumber` restricted to the value forms tool arguments take, with
`none` standing for `NaN`.  String coercion covers the empty string and
optionally-signed decimal integers; fractional, exponent and object
coercions are not modelled and yield `NaN`. -/
def toNum : Option JVal → Option Int
  | some (.num n) => some n
  | some (.bool b) => some (if b then 1 else 0)
  | some .null => some 0
  | some (.str s) => if s.trim = "" then some 0 else s.trim.toInt?
  | _ => none

/-- JS subtraction on coerced numbers; `NaN` absorbs. -/
def jsSub : Option Int → Option Int → Option Int
  | some x, some y => some (x - y)
  | _, _ => none

/-- Interpolation of a JS number that may be `NaN`. -/
def showNum : Option Int → String
  | none => "NaN"
  | some n => toString n

/-- Query string rendered by `URLSearchParams`: `key=value` pairs joined
with ampersands.  Percent-encoding of the values is not modelled. -/
def qstring (ps : List (String × String)) : String :=
  String.intercalate "&" (ps.map fun kv => kv.1 ++ "=" ++ kv.2)

/-- Immutable process configuration. -/
structure Config where
  apiKey : String
  baseUrl : String

/-- The `RequestInit` overrides a branch passes to `callSheeterAPI`.  The
body is the object literal handed to `JSON.stringify`, kept structurally
(field name to possibly-undefined value). -/
structure RequestOptions where
  method : Option String := none
  body : Option (List (String × Option JVal)) := none
  headers : List (String × String) := []

/-- The outbound HTTP request assembled by `callSheeterAPI`. -/
structure ApiRequest where
  url : String
  method : Option String
  headers : List (String × String)
  body : Option (List (String × Option JVal))

/-- One HTTP exchange's outcome: `bodyText` is `response.text()` (read on
failure), `json` is `response.json()` (read on success). -/
structure HttpResponse where
  ok : Bool
  status : Nat
  statusText : String
  bodyText : String
  json : JVal

/-- The network: how `fetch` answers the assembled request. -/
def Net : Type := ApiRequest → HttpResponse

/-- Header assembly of `callSheeterAPI`: the two fixed headers, then the
caller's overrides (JS object spread: a later duplicate key wins). -/
def buildHeaders (config : Config) (options : RequestOptions) : List (String × String) :=
  [("Authorization", "Bearer " ++ config.apiKey),
   ("Content-Type", "application/json")] ++ options.headers

/-- Last-match header lookup, matching JS object-spread override order. -/
def headerValue : List (String × String) → String → Option String
  | [], _ => none
  | (k, v) :: hs, key =>
      match headerValue hs key with
      | some w => some w
      | none => if k = key then some v else none

/-- The request `callSheeterAPI` issues: base URL concatenated with the
endpoint, the caller's method and body, and the assembled headers. -/
def buildRequest (config : Config) (endpoint : String) (options : RequestOptions) : ApiRequest :=
  { url := config.baseUrl ++ endpoint
    method := options.method
    headers := buildHeaders config options
    body := options.body }

/-- `callSheeterAPI` from src/index.ts: issue the request; on a non-ok
status throw with the status, status text and body text; on success return
the parsed JSON body verbatim. -/
def callSheeterAPI (config : Config) (endpoint : String) (options : RequestOptions)
    (net : Net) : Except String JVal :=
  let response := net (buildRequest config endpoint options)
  if response.ok then
    .ok response.json
  else
    .error ("API call failed: " ++ toString response.status ++ " " ++ response.statusText
      ++ " - " ++ response.bodyText)

/-- `Object.entries` of an array: index/element pairs. -/
def entriesIdx (i : Nat) : List JVal → List (String × JVal)
  | [] => []
  | v :: vs => (toString i, v) :: entriesIdx (i + 1) vs

/-- `Object.entries` of a string: index/character pairs. -/
def strEntries (i : Nat) : List Char → List (String × JVal)
  | [] => []
  | ch :: cs => (toString i, .str (String.singleton ch)) :: strEntries (i + 1) cs

/-- `Object.entries(row)`: field pairs of an object, indexed entries of
arrays and strings, empty for other primitives, a throw on `null`. -/
def jsEntries : JVal → Except String (List (String × JVal))
  | .null => .error "TypeError: Cannot convert undefined or null to object"
  | .obj fs => .ok fs
  | .arr xs => .ok (entriesIdx 0 xs)
  | .str s => .ok (strEntries 0 s.data)
  | _ => .ok []

/-- One line of the `read_sheet` row listing. -/
def rowLine (i : Nat) (row : JVal) : Except String String := do
  let es ← jsEntries row
  .ok ("Row " ++ toString (i + 1) ++ ": "
    ++ String.intercalate ", " (es.map fun kv => kv.1 ++ ": " ++ jshowV kv.2))

/-- The row listing of `read_sheet`'s `.map` callback, index-threaded. -/
def rowLines : Nat → List JVal → Except String (List String)
  | _, [] => .ok []
  | i, r :: rs => do
    let line ← rowLine i r
    let rest ← rowLines (i + 1) rs
    .ok (line :: rest)

/-- The `dataText` expression of the `read_sheet` branch: if
`result.data?.length > 0`, the first ten rows (with a remaining-rows marker
past ten), else the no-data message. -/
def readDataText (dataF : Option JVal) : Except String String :=
  if (match jsLenOpt dataF with | some n => decide (0 < n) | none => false) then
    match dataF with
    | some (.arr xs) => do
      let lines ← rowLines 0 (xs.take 10)
      .ok (String.intercalate "\n" lines ++
        (if decide (10 < xs.length) then
          "\n... and " ++ toString ((xs.length : Int) - 10) ++ " more rows"
        else ""))
    | _ => .error "TypeError: result.data.slice(0, 10).map is not a function"
  else
    .ok "No data found"

/-- Optional-chained `x?.join(sep)`: `undefined` for absent or `null`
receivers, the joined elements for arrays (with `null` elements printed
empty), a throw for receivers without a `join` method. -/
def jsJoinOpt (x : Option JVal) (sep : String) : Except String (Option String) :=
  match x with
  | none => .ok none
  | some .null => .ok none
  | some (.arr xs) => .ok (some (String.intercalate sep (xs.map jshowElem)))
  | some _ => .error "TypeError: join is not a function"

/-- JS `x || dflt` where `x` is `undefined` or a string: the default on
`undefined` and on the (falsy) empty string. -/
def jsOrStr (x : Option String) (dflt : String) : String :=
  match x with
  | none => dflt
  | some s => if s = "" then dflt else s

/-- The `create_spreadsheet` branch. -/
def createSpreadsheetTool (c : Config) (net : Net) (args : JVal) : Except String String := do
  let title ← jfield args "title"
  let result ← callSheeterAPI c "/api/sheets/create"
    { method := some "POST", body := some [("title", title)] } net
  let sid ← jfield result "spreadsheetId"
  let surl ← jfield result "spreadsheetUrl"
  .ok ("Successfully created spreadsheet: \"" ++ jshowO title ++ "\"\nSpreadsheet ID: "
    ++ jshowO sid ++ "\nURL: " ++ jshowO surl)

/-- The `read_sheet` branch. -/
def readSheetTool (c : Config) (net : Net) (args : JVal) : Except String String := do
  let sheetId ← jfield args "sheetId"
  let range := (← jfield args "range").getD (.str "A:Z")
  let majorDimension := (← jfield args "majorDimension").getD (.str "ROWS")
  let valueRenderOption := (← jfield args "valueRenderOption").getD (.str "FORMATTED_VALUE")
  let queryParams := qstring [("range", jshowV range),
    ("majorDimension", jshowV majorDimension),
    ("valueRenderOption", jshowV valueRenderOption)]
  let result ← callSheeterAPI c ("/api/sheets/" ++ jshowO sheetId ++ "?" ++ queryParams) {} net
  let dataF ← jfield result "data"
  let dataText ← readDataText dataF
  let rangeF ← jfield result "range"
  let rowCountF ← jfield result "rowCount"
  let headersF ← jfield result "headers"
  let headersJoined ← jsJoinOpt headersF ", "
  .ok ("Sheet Data from " ++ jshowO rangeF ++ " (" ++ jshowO rowCountF
    ++ " rows):\n\nHeaders: " ++ jsOrStr headersJoined "No headers"
    ++ "\n\nData:\n" ++ dataText)

/-- The `write_sheet` branch. -/
def writeSheetTool (c : Config) (net : Net) (args : JVal) : Except String String := do
  let sheetId ← jfield args "sheetId"
  let range ← jfield args "range"
  let values ← jfield args "values"
  let valueInputOption := (← jfield args "valueInputOption").getD (.str "USER_ENTERED")
  let result ← callSheeterAPI c ("/api/sheets/" ++ jshowO sheetId ++ "/values")
    { method := some "PUT",
      body := some [("range", range), ("values", values),
        ("valueInputOption", some valueInputOption)] } net
  let uc ← jfield result "updatedCells"
  let ur ← jfield result "updatedRange"
  let urows ← jfield result "updatedRows"
  let ucols ← jfield result "updatedColumns"
  .ok ("Successfully updated " ++ jshowO uc ++ " cells in range " ++ jshowO ur
    ++ "\nUpdated " ++ jshowO urows ++ " rows and " ++ jshowO ucols ++ " columns")

/-- The `append_to_sheet` branch. -/
def appendToSheetTool (c : Config) (net : Net) (args : JVal) : Except String String := do
  let sheetId ← jfield args "sheetId"
  let values ← jfield args "values"
  let valueInputOption := (← jfield args "valueInputOption").getD (.str "USER_ENTERED")
  let result ← callSheeterAPI c ("/api/sheets/" ++ jshowO sheetId ++ "/append")
    { method := some "POST",
      body := some [("values", values), ("valueInputOption", some valueInputOption)] } net
  let updates ← jfield result "updates"
  let uc ← jfieldO updates "updatedCells"
  let ur ← jfieldO updates "updatedRange"
  .ok ("Successfully appended " ++ jshowO uc ++ " cells to the sheet\nData added to range: "
    ++ jshowO ur)

/-- The `clear_range` branch. -/
def clearRangeTool (c : Config) (net : Net) (args : JVal) : Except String String := do
  let sheetId ← jfield args "sheetId"
  let range ← jfield args "range"
  let queryParams := qstring [("range", jshowO range)]
  let result ← callSheeterAPI c ("/api/sheets/" ++ jshowO sheetId ++ "/values?" ++ queryParams)
    { method := some "DELETE" } net
  let cr ← jfield result "clearedRange"
  .ok ("Successfully cleared range " ++ jshowO cr)

/-- One line of the `batch_get_ranges` range summary. -/
def vrLine (i : Nat) (vr : JVal) : Except String String := do
  let r ← jfield vr "range"
  let vs ← jfield vr "values"
  .ok ("Range " ++ toString (i + 1) ++ " (" ++ jshowO r ++ "): "
    ++ toString ((jsLenOpt vs).getD 0) ++ " rows")

/-- The `batch_get_ranges` `.map` callback, index-threaded. -/
def vrLines : Nat → List JVal → Except String (List String)
  | _, [] => .ok []
  | i, vr :: vrs => do
    let line ← vrLine i vr
    let rest ← vrLines (i + 1) vrs
    .ok (line :: rest)

/-- The `batch_get_ranges` branch. -/
def batchGetRangesTool (c : Config) (net : Net) (args : JVal) : Except String String := do
  let sheetId ← jfield args "sheetId"
  let ranges ← jfield args "ranges"
  let majorDimension := (← jfield args "majorDimension").getD (.str "ROWS")
  let valueRenderOption := (← jfield args "valueRenderOption").getD (.str "FORMATTED_VALUE")
  let result ← callSheeterAPI c ("/api/sheets/" ++ jshowO sheetId ++ "/batch-get")
    { method := some "POST",
      body := some [("ranges", ranges), ("majorDimension", some majorDimension),
        ("valueRenderOption", some valueRenderOption)] } net
  let vrF ← jfield result "valueRanges"
  let rangeResults ← match vrF with
    | none => pure (none : Option String)
    | some .null => pure none
    | some (.arr xs) => do
        let ls ← vrLines 0 xs
        pure (some (String.intercalate "\n" ls))
    | some _ => .error "TypeError: result.valueRanges.map is not a function"
  let rl ← jsLength ranges
  .ok ("Batch get completed for " ++ showON rl ++ " ranges:\n\n"
    ++ jsOrStr rangeResults "No ranges returned")

/-- The `batch_update_ranges` branch. -/
def batchUpdateRangesTool (c : Config) (net : Net) (args : JVal) : Except String String := do
  let sheetId ← jfield args "sheetId"
  let data ← jfield args "data"
  let valueInputOption := (← jfield args "valueInputOption").getD (.str "USER_ENTERED")
  let result ← callSheeterAPI c ("/api/sheets/" ++ jshowO sheetId ++ "/batch-update")
    { method := some "PUT",
      body := some [("data", data), ("valueInputOption", some valueInputOption)] } net
  let tuc ← jfield result "totalUpdatedCells"
  let dl ← jsLength data
  .ok ("Batch update completed:\nTotal updated cells: " ++ jshowO tuc
    ++ "\nTotal updated ranges: " ++ showON dl)

/-- One line of the `get_sheet_metadata` sheet listing. -/
def sheetLine (sheet : JVal) : Except String String := do
  let t ← jfield sheet "title"
  let sid ← jfield sheet "sheetId"
  let gp ← jfield sheet "gridProperties"
  let rc ← jfieldO gp "rowCount"
  let cc ← jfieldO gp "columnCount"
  .ok ("• " ++ jshowO t ++ " (ID: " ++ jshowO sid ++ ", " ++ jshowO rc ++ " rows × "
    ++ jshowO cc ++ " cols)")

/-- The `get_sheet_metadata` `.map` callback. -/
def sheetLines : List JVal → Except String (List String)
  | [] => .ok []
  | s :: ss => do
    let line ← sheetLine s
    let rest ← sheetLines ss
    .ok (line :: rest)

/-- The `get_sheet_metadata` branch. -/
def getSheetMetadataTool (c : Config) (net : Net) (args : JVal) : Except String String := do
  let sheetId ← jfield args "sheetId"
  let result ← callSheeterAPI c ("/api/sheets/" ++ jshowO sheetId ++ "/metadata") {} net
  let sheetsF ← jfield result "sheets"
  let sheetsInfo ← match sheetsF with
    | none => pure (none : Option String)
    | some .null => pure none
    | some (.arr xs) => do
        let ls ← sheetLines xs
        pure (some (String.intercalate "\n" ls))
    | some _ => .error "TypeError: result.sheets.map is not a function"
  let props ← jfield result "properties"
  let title ← jfieldO props "title"
  let sidF ← jfield result "spreadsheetId"
  let locale ← jfieldO props "locale"
  let tz ← jfieldO props "timeZone"
  .ok ("Spreadsheet: " ++ jshowO title ++ "\nSpreadsheet ID: " ++ jshowO sidF
    ++ "\nLocale: " ++ jshowO locale ++ "\nTime Zone: " ++ jshowO tz
    ++ "\n\nSheets:\n" ++ jsOrStr sheetsInfo "No sheets found")

/-- The `delete_rows` branch.  The response is bound but never read. -/
def deleteRowsTool (c : Config) (net : Net) (args : JVal) : Except String String := do
  let sheetId ← jfield args "sheetId"
  let startIndex ← jfield args "startIndex"
  let endIndex ← jfield args "endIndex"
  let sheetTabId := (← jfield args "sheetTabId").getD (.num 0)
  let s1 ← jsToString startIndex
  let s2 ← jsToString endIndex
  let s3 ← jsToString (some sheetTabId)
  let queryParams := qstring [("startIndex", s1), ("endIndex", s2), ("sheetTabId", s3)]
  let _result ← callSheeterAPI c ("/api/sheets/" ++ jshowO sheetId ++ "/rows?" ++ queryParams)
    { method := some "DELETE" } net
  .ok ("Successfully deleted rows from index " ++ jshowO startIndex ++ " to "
    ++ showNum (jsSub (toNum endIndex) (some 1)) ++ " ("
    ++ showNum (jsSub (toNum endIndex) (toNum startIndex)) ++ " rows total)")

/-- The `batch_update_spreadsheet` branch.  The response is bound but never
read. -/
def batchUpdateSpreadsheetTool (c : Config) (net : Net) (args : JVal) : Except String String := do
  let sheetId ← jfield args "sheetId"
  let requests ← jfield args "requests"
  let _result ← callSheeterAPI c
    ("/api/sheets/" ++ jshowO sheetId ++ "/batch-update-spreadsheet")
    { method := some "POST", body := some [("requests", requests)] } net
  let rl ← jsLength requests
  .ok ("Batch spreadsheet operation completed successfully\nProcessed " ++ showON rl
    ++ " requests\nOperation details available in spreadsheet")

/-- The switch of the `CallToolRequestSchema` handler: route the tool name
to its branch; an unrecognized name throws. -/
def runTool (c : Config) (net : Net) (name : String) (args : JVal) : Except String String :=
  if name = "create_spreadsheet" then createSpreadsheetTool c net args
  else if name = "read_sheet" then readSheetTool c net args
  else if name = "write_sheet" then writeSheetTool c net args
  else if name = "append_to_sheet" then appendToSheetTool c net args
  else if name = "clear_range" then clearRangeTool c net args
  else if name = "batch_get_ranges" then batchGetRangesTool c net args
  else if name = "batch_update_ranges" then batchUpdateRangesTool c net args
  else if name = "get_sheet_metadata" then getSheetMetadataTool c net args
  else if name = "delete_rows" then deleteRowsTool c net args
  else if name = "batch_update_spreadsheet" then batchUpdateSpreadsheetTool c net args
  else .error ("Unknown tool: " ++ name)

/-- The result object of a tool invocation: its text content items and the
error flag (absent on success in the source, modelled as `false`). -/
structure ToolResult where
  content : List String
  isError : Bool
deriving DecidableEq

/-- The try/catch boundary of the handler: a completed branch becomes a
success result, a thrown error becomes an error-flagged result carrying
the error's message. -/
def mkToolResult : Except String String → ToolResult
  | .ok t => { content := [t], isError := false }
  | .error e => { content := ["Error: " ++ e], isError := true }

/-- One full tool invocation through the `CallToolRequestSchema` handler. -/
def callTool (c : Config) (name : String) (args : JVal) (net : Net) : ToolResult :=
  mkToolResult (runTool c net name args)

/-- One catalog entry of the `ListToolsRequestSchema` handler: the name,
description, declared property names (in declaration order) and the
required-argument list of its input schema. -/
structure ToolDecl where
  name : String
  description : String
  propNames : List String
  required : List String
deriving DecidableEq

/-- The static tool catalog of the `ListToolsRequestSchema` handler. -/
def toolCatalog : List ToolDecl :=
  [{ name := "create_spreadsheet"
     description := "Create a new Google Spreadsheet"
     propNames := ["title"]
     required := ["title"] },
   { name := "read_sheet"
     description := "Read data from a Google Sheet"
     propNames := ["sheetId", "range", "majorDimension", "valueRenderOption"]
     required := ["sheetId"] },
   { name := "write_sheet"
     description := "Update values in a single range of a Google Sheet"
     propNames := ["sheetId", "range", "values", "valueInputOption"]
     required := ["sheetId", "range", "values"] },
   { name := "append_to_sheet"
     description := "Append values to the end of a Google Sheet"
     propNames := ["sheetId", "values", "valueInputOption"]
     required := ["sheetId", "values"] },
   { name := "clear_range"
     description := "Clear values from a specific range in a Google Sheet"
     propNames := ["sheetId", "range"]
     required := ["sheetId", "range"] },
   { name := "batch_get_ranges"
     description := "Read values from multiple ranges in a Google Sheet"
     propNames := ["sheetId", "ranges", "majorDimension", "valueRenderOption"]
     required := ["sheetId", "ranges"] },
   { name := "batch_update_ranges"
     description := "Update values in multiple ranges of a Google Sheet"
     propNames := ["sheetId", "data", "valueInputOption"]
     required := ["sheetId", "data"] },
   { name := "get_sheet_metadata"
     description := "Get information about a Google Spreadsheet including sheets and properties"
     propNames := ["sheetId"]
     required := ["sheetId"] },
   { name := "delete_rows"
     description := "Delete specific rows from a Google Sheet"
     propNames := ["sheetId", "startIndex", "endIndex", "sheetTabId"]
     required := ["sheetId", "startIndex", "endIndex"] },
   { name := "batch_update_spreadsheet"
     description := "Perform complex operations like find/replace, formatting, adding sheets, etc."
     propNames := ["sheetId", "requests"]
     required := ["sheetId", "requests"] }]

/-- The `ListToolsRequestSchema` handler: no inputs beyond the trivial one,
no state, always the static catalog. -/
def listTools (_ : Unit) : List ToolDecl := toolCatalog

/-- The ten tool names of the catalog. -/
def toolNames : List String := toolCatalog.map ToolDecl.name

/-! ### Statement-side material -/

/-- `pat` occurs as a contiguous substring of `s`. -/
abbrev strContains (s pat : String) : Prop := pat.data <:+: s.data

/-- Substring occurrence from an explicit decomposition of the character
list. -/
theorem strContains_of_eq (s a pat b : String)
    (h : s.data = a.data ++ pat.data ++ b.data) : strContains s pat :=
  ⟨a.data, b.data, h.symm⟩

/-- A sample configuration for closed instances. -/
def cfg0 : Config := { apiKey := "K", baseUrl := "https://sheeter.example" }

/-- A network whose every response is a success carrying the fixture `j`. -/
def okNet (j : JVal) : Net := fun _ =>
  { ok := true, status := 200, statusText := "OK", bodyText := "", json := j }

/-- A network whose every response is a 404 failure with body text
`Not Found` and status text `st`. -/
def net404 (st : String) : Net := fun _ =>
  { ok := false, status := 404, statusText := st, bodyText := "Not Found", json := .null }

/-- An argument object supplying every declared argument of every tool with
a value of its declared type. -/
def fullArgs : JVal := .obj
  [("title", .str "T"), ("sheetId", .str "S"), ("range", .str "A1:B2"),
   ("values", .arr []), ("ranges", .arr []), ("data", .arr []),
   ("startIndex", .num 2), ("endIndex", .num 5), ("sheetTabId", .num 0),
   ("requests", .arr [])]

/-- On the always-success network the client returns the fixture. -/
theorem callSheeterAPI_okNet (c : Config) (endpoint : String) (o : RequestOptions) (j : JVal) :
    callSheeterAPI c endpoint o (okNet j) = .ok j := rfl

/-- The character list of the empty string. -/
theorem data_nil : ("" : String).data = [] := rfl

/-- Monadic success propagation in `Except`. -/
theorem bind_ok_local {α β : Type} (a : α) (f : α → Except String β) :
    (do let x ← Except.ok a; f x : Except String β) = f a := rfl

/-- Monadic error propagation in `Except`. -/
theorem bind_err_local {α β : Type} (e : String) (f : α → Except String β) :
    (do let x ← Except.error e; f x : Except String β) = Except.error e := rfl

/-- The 404 error text contains the numeric status. -/
theorem err404_contains_status (st : String) :
    strContains ("Error: " ++ ("API call failed: " ++ toString (404 : Nat) ++ " " ++ st ++ " - "
      ++ "Not Found")) "404" :=
  strContains_of_eq _ ("Error: " ++ "API call failed: ") _
    (" " ++ st ++ " - " ++ "Not Found")
    (by simp [String.data_append, List.append_assoc,
      show toString (404 : Nat) = "404" from rfl])

/-- The 404 error text contains the response body text. -/
theorem err404_contains_body (st : String) :
    strContains ("Error: " ++ ("API call failed: " ++ toString (404 : Nat) ++ " " ++ st ++ " - "
      ++ "Not Found")) "Not Found" :=
  strContains_of_eq _ ("Error: " ++ ("API call failed: " ++ toString (404 : Nat) ++ " " ++ st ++ " - ")) _ ""
    (by simp [String.data_append, List.append_assoc, data_nil,
      show toString (404 : Nat) = "404" from rfl])

/-- A falsy-default on a nonempty string is the string itself. -/
theorem jsOrStr_of_ne (s d : String) (h : s ≠ "") : jsOrStr (some s) d = s := by
  simp [jsOrStr, h]

/-- A string with a nonempty right factor is nonempty. -/
theorem append_ne_empty_right (a b : String) (h : b.length ≠ 0) : a ++ b ≠ "" := by
  intro e
  have e2 := congrArg String.length e
  rw [String.length_append] at e2
  have h0 : ("" : String).length = 0 := rfl
  rw [h0] at e2
  omega

/-- Intercalation of a single string. -/
theorem intercalate_singleton (s x : String) : String.intercalate s [x] = x := rfl

/-- The joined headers line of a `read_sheet` response, when joining does
not throw: `none` when the field is absent or `null`, the join otherwise. -/
def headersJoin (x : Option JVal) : Option String :=
  match jsJoinOpt x ", " with
  | .ok o => o
  | .error _ => none

/-! ### Claims -/

/-- C1: every tool invocation, whatever the name, arguments and network,
produces a result object with exactly one text content item, and whenever
the dispatched branch throws, the outer boundary converts the error into
an error-flagged result whose text is the error's message — no error
escapes the handler. -/
theorem dispatcher_catches_all_errors (c : Config) (name : String) (args : JVal)
    (net : Net) (e : String) :
    (callTool c name args net).content.length = 1 ∧
    (runTool c net name args = .error e →
      callTool c name args net = { content := ["Error: " ++ e], isError := true }) := by
  refine ⟨?_, ?_⟩
  · cases h : runTool c net name args <;> simp [callTool, mkToolResult, h]
  · intro h
    simp [callTool, h, mkToolResult]

/-- Witness for C1: the unknown tool name `delete_sheet` raises, is caught,
and yields the single-item error result. -/
theorem dispatcher_catches_all_errors_witness :
    (callTool cfg0 "delete_sheet" (.obj []) (okNet .null)).content.length = 1 ∧
    callTool cfg0 "delete_sheet" (.obj []) (okNet .null) =
      { content := ["Error: " ++ "Unknown tool: delete_sheet"], isError := true } :=
  ⟨(dispatcher_catches_all_errors cfg0 "delete_sheet" (.obj []) (okNet .null)
      "Unknown tool: delete_sheet").1,
   (dispatcher_catches_all_errors cfg0 "delete_sheet" (.obj []) (okNet .null)
      "Unknown tool: delete_sheet").2 rfl⟩

/-- C2: the API client issues the request at the base URL concatenated with
the endpoint, attaches the bearer-authorization and JSON content-type
headers (when the caller's overrides do not replace them, as at every call
site), fails on a non-success status with an error carrying the numeric
status, the status text and the body text, returns a success body verbatim
with no validation, and under a mocked 404 with body `Not Found` every
catalog tool's invocation yields an error-flagged result whose text
contains the status and the body. -/
theorem api_client_contract (c : Config) (endpoint : String) (o : RequestOptions) (net : Net)
    (hA : headerValue o.headers "Authorization" = none)
    (hC : headerValue o.headers "Content-Type" = none) :
    (buildRequest c endpoint o).url = c.baseUrl ++ endpoint ∧
    headerValue (buildRequest c endpoint o).headers "Authorization"
      = some ("Bearer " ++ c.apiKey) ∧
    headerValue (buildRequest c endpoint o).headers "Content-Type"
      = some "application/json" ∧
    ((net (buildRequest c endpoint o)).ok = false →
      callSheeterAPI c endpoint o net = .error ("API call failed: "
        ++ toString (net (buildRequest c endpoint o)).status ++ " "
        ++ (net (buildRequest c endpoint o)).statusText ++ " - "
        ++ (net (buildRequest c endpoint o)).bodyText)) ∧
    ((net (buildRequest c endpoint o)).ok = true →
      callSheeterAPI c endpoint o net = .ok (net (buildRequest c endpoint o)).json) ∧
    (∀ name, name ∈ toolNames → ∀ st : String,
      callTool c name fullArgs (net404 st) =
        { content := ["Error: " ++ ("API call failed: " ++ toString (404 : Nat) ++ " " ++ st ++ " - "
            ++ "Not Found")], isError := true } ∧
      strContains ("Error: " ++ ("API call failed: " ++ toString (404 : Nat) ++ " " ++ st ++ " - "
        ++ "Not Found")) "404" ∧
      strContains ("Error: " ++ ("API call failed: " ++ toString (404 : Nat) ++ " " ++ st ++ " - "
        ++ "Not Found")) "Not Found") := by
  refine ⟨rfl, ?_, ?_, ?_, ?_, ?_⟩
  · simp [buildRequest, buildHeaders, headerValue, hA, hC]
  · simp [buildRequest, buildHeaders, headerValue, hA, hC]
  · intro h
    simp [callSheeterAPI, h]
  · intro h
    simp [callSheeterAPI, h]
  · intro name hmem st
    simp only [toolNames, toolCatalog, List.map_cons, List.map_nil, List.mem_cons,
      List.not_mem_nil, or_false] at hmem
    rcases hmem with rfl | rfl | rfl | rfl | rfl | rfl | rfl | rfl | rfl | rfl <;>
      exact ⟨rfl, err404_contains_status st, err404_contains_body st⟩

/-- Witness for C2: a concrete call with no overrides, and the mocked 404
behavior across the catalog. -/
theorem api_client_contract_witness :
    (buildRequest cfg0 "/api/x" {}).url = cfg0.baseUrl ++ "/api/x" ∧
    headerValue (buildRequest cfg0 "/api/x" {}).headers "Authorization"
      = some ("Bearer " ++ cfg0.apiKey) ∧
    headerValue (buildRequest cfg0 "/api/x" {}).headers "Content-Type"
      = some "application/json" ∧
    ((okNet .null (buildRequest cfg0 "/api/x" {})).ok = false →
      callSheeterAPI cfg0 "/api/x" {} (okNet .null) = .error ("API call failed: "
        ++ toString (okNet .null (buildRequest cfg0 "/api/x" {})).status ++ " "
        ++ (okNet .null (buildRequest cfg0 "/api/x" {})).statusText ++ " - "
        ++ (okNet .null (buildRequest cfg0 "/api/x" {})).bodyText)) ∧
    ((okNet .null (buildRequest cfg0 "/api/x" {})).ok = true →
      callSheeterAPI cfg0 "/api/x" {} (okNet .null)
        = .ok (okNet .null (buildRequest cfg0 "/api/x" {})).json) ∧
    (∀ name, name ∈ toolNames → ∀ st : String,
      callTool cfg0 name fullArgs (net404 st) =
        { content := ["Error: " ++ ("API call failed: " ++ toString (404 : Nat) ++ " " ++ st ++ " - "
            ++ "Not Found")], isError := true } ∧
      strContains ("Error: " ++ ("API call failed: " ++ toString (404 : Nat) ++ " " ++ st ++ " - "
        ++ "Not Found")) "404" ∧
      strContains ("Error: " ++ ("API call failed: " ++ toString (404 : Nat) ++ " " ++ st ++ " - "
        ++ "Not Found")) "Not Found") :=
  api_client_contract cfg0 "/api/x" {} (okNet .null) rfl rfl

/-- Counterexample for C3 as stated: with a fixture whose `message` field is
`MSGX`, the `create_spreadsheet` branch's output does not contain that
literal value — the output is not complete for all fixture values. -/
theorem branch_formatting_completeness_refuted :
    callTool cfg0 "create_spreadsheet" (.obj [("title", .str "T")])
        (okNet (.obj [("success", .bool true), ("spreadsheetId", .str "SID1"),
          ("spreadsheetUrl", .str "URL1"), ("message", .str "MSGX")])) =
      { content := ["Successfully created spreadsheet: \"T\"\nSpreadsheet ID: SID1\nURL: URL1"],
        isError := false } ∧
    ¬ strContains "Successfully created spreadsheet: \"T\"\nSpreadsheet ID: SID1\nURL: URL1"
      "MSGX" :=
  ⟨rfl, by decide⟩

/-- One data row of a well-formed `read_sheet` fixture as a JSON object. -/
def rowToJ (r : List (String × String)) : JVal :=
  .obj (r.map fun kv => (kv.1, .str kv.2))

/-- The line `read_sheet` prints for row `r` at zero-based index `i`. -/
def expectedRowLine (i : Nat) (r : List (String × String)) : String :=
  "Row " ++ toString (i + 1) ++ ": "
    ++ String.intercalate ", " (r.map fun kv => kv.1 ++ ": " ++ kv.2)

/-- The lines `read_sheet` prints for consecutive rows. -/
def expectedRowLines : Nat → List (List (String × String)) → List String
  | _, [] => []
  | i, r :: rs => expectedRowLine i r :: expectedRowLines (i + 1) rs

/-- A well-formed `read_sheet` response fixture. -/
def readFixture (rng : String) (rc : Int) (rows : List (List (String × String)))
    (hdrs : List String) : JVal :=
  .obj [("success", .bool true), ("range", .str rng), ("rowCount", .num rc),
    ("data", .arr (rows.map rowToJ)), ("headers", .arr (hdrs.map JVal.str))]

/-- String elements print as themselves inside a join. -/
theorem jshowElem_str (s : String) : jshowElem (.str s) = s := rfl

/-- Row formatting on a well-formed row. -/
theorem rowLine_rowToJ (i : Nat) (r : List (String × String)) :
    rowLine i (rowToJ r) = .ok (expectedRowLine i r) := by
  simp [rowLine, rowToJ, jsEntries, expectedRowLine, bind_ok_local, List.map_map,
    Function.comp_def, jshowV]

/-- Row-listing formatting on well-formed rows. -/
theorem rowLines_map (rs : List (List (String × String))) :
    ∀ i, rowLines i (rs.map rowToJ) = .ok (expectedRowLines i rs) := by
  induction rs with
  | nil => intro i; rfl
  | cons r rs ih =>
      intro i
      simp [rowLines, rowLine_rowToJ, ih, expectedRowLines, bind_ok_local]

/-- Joining an array of strings is plain intercalation. -/
theorem jsJoinOpt_strs (hdrs : List String) (sep : String) :
    jsJoinOpt (some (.arr (hdrs.map JVal.str))) sep
      = .ok (some (String.intercalate sep hdrs)) := by
  simp [jsJoinOpt, List.map_map, Function.comp_def, jshowElem_str]

/-- C3 (amended): every dispatcher branch's text output contains the
response values that branch reports — spreadsheet id and URL for
`create_spreadsheet`; range, row count, headers and row listing for
`read_sheet`; the four update counts for `write_sheet`; appended-cell count
and range for `append_to_sheet`; the cleared range for `clear_range`; each
range name and row count for `batch_get_ranges`; the total updated cells
for `batch_update_ranges`; the spreadsheet and sheet attributes for
`get_sheet_metadata` — while the `delete_rows` and
`batch_update_spreadsheet` branches report no response values at all. -/
theorem branch_formatting_reports_selected_fields (c : Config)
    (title csid csurl msg cellv rng : String) (rc : Int)
    (wuc wurows wucols : Int) (wurng : String)
    (auc : Int) (arng crng vrng : String) (vs : List JVal)
    (tuc : Int) (msid mtitle mloc mtz shtitle : String) (shid shr shc : Int)
    (j jj : JVal) :
    (callTool c "create_spreadsheet" (.obj [("title", .str title)])
        (okNet (.obj [("success", .bool true), ("spreadsheetId", .str csid),
          ("spreadsheetUrl", .str csurl), ("message", .str msg)])) =
      { content := ["Successfully created spreadsheet: \"" ++ title
          ++ "\"\nSpreadsheet ID: " ++ csid ++ "\nURL: " ++ csurl], isError := false }) ∧
    strContains ("Successfully created spreadsheet: \"" ++ title
      ++ "\"\nSpreadsheet ID: " ++ csid ++ "\nURL: " ++ csurl) csid ∧
    strContains ("Successfully created spreadsheet: \"" ++ title
      ++ "\"\nSpreadsheet ID: " ++ csid ++ "\nURL: " ++ csurl) csurl ∧
    (callTool c "read_sheet" (.obj [("sheetId", .str "S")])
        (okNet (readFixture rng rc [[("k", cellv)]] ["h"])) =
      { content := ["Sheet Data from " ++ rng ++ " (" ++ toString rc
          ++ " rows):\n\nHeaders: " ++ "h" ++ "\n\nData:\n"
          ++ String.intercalate "\n" (expectedRowLines 0 [[("k", cellv)]])],
        isError := false }) ∧
    strContains ("Sheet Data from " ++ rng ++ " (" ++ toString rc
      ++ " rows):\n\nHeaders: " ++ "h" ++ "\n\nData:\n"
      ++ String.intercalate "\n" (expectedRowLines 0 [[("k", cellv)]])) rng ∧
    strContains ("Sheet Data from " ++ rng ++ " (" ++ toString rc
      ++ " rows):\n\nHeaders: " ++ "h" ++ "\n\nData:\n"
      ++ String.intercalate "\n" (expectedRowLines 0 [[("k", cellv)]])) (toString rc) ∧
    (callTool c "write_sheet"
        (.obj [("sheetId", .str "S"), ("range", .str "A1"), ("values", .arr [])])
        (okNet (.obj [("success", .bool true), ("updatedCells", .num wuc),
          ("updatedRange", .str wurng), ("updatedRows", .num wurows),
          ("updatedColumns", .num wucols)])) =
      { content := ["Successfully updated " ++ toString wuc ++ " cells in range " ++ wurng
          ++ "\nUpdated " ++ toString wurows ++ " rows and " ++ toString wucols
          ++ " columns"], isError := false }) ∧
    strContains ("Successfully updated " ++ toString wuc ++ " cells in range " ++ wurng
      ++ "\nUpdated " ++ toString wurows ++ " rows and " ++ toString wucols ++ " columns")
      (toString wuc) ∧
    strContains ("Successfully updated " ++ toString wuc ++ " cells in range " ++ wurng
      ++ "\nUpdated " ++ toString wurows ++ " rows and " ++ toString wucols ++ " columns")
      wurng ∧
    (callTool c "append_to_sheet" (.obj [("sheetId", .str "S"), ("values", .arr [])])
        (okNet (.obj [("success", .bool true),
          ("updates", .obj [("updatedCells", .num auc), ("updatedRange", .str arng)])])) =
      { content := ["Successfully appended " ++ toString auc
          ++ " cells to the sheet\nData added to range: " ++ arng], isError := false }) ∧
    strContains ("Successfully appended " ++ toString auc
      ++ " cells to the sheet\nData added to range: " ++ arng) (toString auc) ∧
    strContains ("Successfully appended " ++ toString auc
      ++ " cells to the sheet\nData added to range: " ++ arng) arng ∧
    (callTool c "clear_range" (.obj [("sheetId", .str "S"), ("range", .str "A1")])
        (okNet (.obj [("success", .bool true), ("clearedRange", .str crng)])) =
      { content := ["Successfully cleared range " ++ crng], isError := false }) ∧
    strContains ("Successfully cleared range " ++ crng) crng ∧
    (callTool c "batch_get_ranges"
        (.obj [("sheetId", .str "S"), ("ranges", .arr [.str "A1"])])
        (okNet (.obj [("success", .bool true),
          ("valueRanges", .arr [.obj [("range", .str vrng), ("values", .arr vs)]])])) =
      { content := ["Batch get completed for " ++ toString (1 : Nat) ++ " ranges:\n\n"
          ++ ("Range " ++ toString (1 : Nat) ++ " (" ++ vrng ++ "): "
            ++ toString vs.length ++ " rows")], isError := false }) ∧
    strContains ("Batch get completed for " ++ toString (1 : Nat) ++ " ranges:\n\n"
      ++ ("Range " ++ toString (1 : Nat) ++ " (" ++ vrng ++ "): "
        ++ toString vs.length ++ " rows")) vrng ∧
    strContains ("Batch get completed for " ++ toString (1 : Nat) ++ " ranges:\n\n"
      ++ ("Range " ++ toString (1 : Nat) ++ " (" ++ vrng ++ "): "
        ++ toString vs.length ++ " rows")) (toString vs.length) ∧
    (callTool c "batch_update_ranges" (.obj [("sheetId", .str "S"), ("data", .arr [])])
        (okNet (.obj [("success", .bool true), ("totalUpdatedCells", .num tuc)])) =
      { content := ["Batch update completed:\nTotal updated cells: " ++ toString tuc
          ++ "\nTotal updated ranges: " ++ toString (0 : Nat)], isError := false }) ∧
    strContains ("Batch update completed:\nTotal updated cells: " ++ toString tuc
      ++ "\nTotal updated ranges: " ++ toString (0 : Nat)) (toString tuc) ∧
    (callTool c "get_sheet_metadata" (.obj [("sheetId", .str "S")])
        (okNet (.obj [("success", .bool true), ("spreadsheetId", .str msid),
          ("properties", .obj [("title", .str mtitle), ("locale", .str mloc),
            ("timeZone", .str mtz)]),
          ("sheets", .arr [.obj [("sheetId", .num shid), ("title", .str shtitle),
            ("gridProperties", .obj [("rowCount", .num shr),
              ("columnCount", .num shc)])]])])) =
      { content := ["Spreadsheet: " ++ mtitle ++ "\nSpreadsheet ID: " ++ msid
          ++ "\nLocale: " ++ mloc ++ "\nTime Zone: " ++ mtz ++ "\n\nSheets:\n"
          ++ ("• " ++ shtitle ++ " (ID: " ++ toString shid ++ ", " ++ toString shr
            ++ " rows × " ++ toString shc ++ " cols)")], isError := false }) ∧
    strContains ("Spreadsheet: " ++ mtitle ++ "\nSpreadsheet ID: " ++ msid
      ++ "\nLocale: " ++ mloc ++ "\nTime Zone: " ++ mtz ++ "\n\nSheets:\n"
      ++ ("• " ++ shtitle ++ " (ID: " ++ toString shid ++ ", " ++ toString shr
        ++ " rows × " ++ toString shc ++ " cols)")) mtitle ∧
    strContains ("Spreadsheet: " ++ mtitle ++ "\nSpreadsheet ID: " ++ msid
      ++ "\nLocale: " ++ mloc ++ "\nTime Zone: " ++ mtz ++ "\n\nSheets:\n"
      ++ ("• " ++ shtitle ++ " (ID: " ++ toString shid ++ ", " ++ toString shr
        ++ " rows × " ++ toString shc ++ " cols)")) msid ∧
    callTool c "delete_rows" fullArgs (okNet j)
      = callTool c "delete_rows" fullArgs (okNet jj) ∧
    callTool c "batch_update_spreadsheet" fullArgs (okNet j)
      = callTool c "batch_update_spreadsheet" fullArgs (okNet jj) := by
  refine ⟨rfl, ?_, ?_, ?_, ?_, ?_, rfl, ?_, ?_, rfl, ?_, ?_, rfl, ?_, ?_, ?_, ?_, rfl,
    ?_, ?_, ?_, ?_, rfl, rfl⟩
  · exact strContains_of_eq _
      ("Successfully created spreadsheet: \"" ++ title ++ "\"\nSpreadsheet ID: ") _
      ("\nURL: " ++ csurl)
      (by simp [String.data_append, List.append_assoc])
  · exact strContains_of_eq _
      ("Successfully created spreadsheet: \"" ++ title ++ "\"\nSpreadsheet ID: "
        ++ csid ++ "\nURL: ") _ ""
      (by simp [String.data_append, List.append_assoc, data_nil])
  · simp [callTool, runTool, readSheetTool, mkToolResult, bind_ok_local, jfield, jlookup,
      readFixture, callSheeterAPI_okNet, readDataText, jsLenOpt, List.length_map,
      rowLines, rowLine, jsEntries, rowToJ, expectedRowLines, expectedRowLine,
      jsJoinOpt, jshowElem, jsOrStr, intercalate_singleton, jshowO, jshowV]
  · exact strContains_of_eq _ "Sheet Data from " _
      (" (" ++ toString rc ++ " rows):\n\nHeaders: " ++ "h" ++ "\n\nData:\n"
        ++ String.intercalate "\n" (expectedRowLines 0 [[("k", cellv)]]))
      (by simp [String.data_append, List.append_assoc])
  · exact strContains_of_eq _ ("Sheet Data from " ++ rng ++ " (") _
      (" rows):\n\nHeaders: " ++ "h" ++ "\n\nData:\n"
        ++ String.intercalate "\n" (expectedRowLines 0 [[("k", cellv)]]))
      (by simp [String.data_append, List.append_assoc])
  · exact strContains_of_eq _ "Successfully updated " _
      (" cells in range " ++ wurng ++ "\nUpdated " ++ toString wurows ++ " rows and "
        ++ toString wucols ++ " columns")
      (by simp [String.data_append, List.append_assoc])
  · exact strContains_of_eq _
      ("Successfully updated " ++ toString wuc ++ " cells in range ") _
      ("\nUpdated " ++ toString wurows ++ " rows and " ++ toString wucols ++ " columns")
      (by simp [String.data_append, List.append_assoc])
  · exact strContains_of_eq _ "Successfully appended " _
      (" cells to the sheet\nData added to range: " ++ arng)
      (by simp [String.data_append, List.append_assoc])
  · exact strContains_of_eq _
      ("Successfully appended " ++ toString auc
        ++ " cells to the sheet\nData added to range: ") _ ""
      (by simp [String.data_append, List.append_assoc, data_nil])
  · exact strContains_of_eq _ "Successfully cleared range " _ ""
      (by simp [String.data_append, List.append_assoc, data_nil])
  · simp [callTool, runTool, batchGetRangesTool, mkToolResult, bind_ok_local,
      jfield, jlookup, callSheeterAPI_okNet, vrLines, vrLine, jsLenOpt, jsLength,
      showON, jshowO, jshowV, intercalate_singleton]
    rw [jsOrStr_of_ne]
    exact append_ne_empty_right _ " rows" (by decide)
  · exact strContains_of_eq _
      ("Batch get completed for " ++ toString (1 : Nat) ++ " ranges:\n\n"
        ++ ("Range " ++ toString (1 : Nat) ++ " (")) _
      ("): " ++ toString vs.length ++ " rows")
      (by simp [String.data_append, List.append_assoc])
  · exact strContains_of_eq _
      ("Batch get completed for " ++ toString (1 : Nat) ++ " ranges:\n\n"
        ++ ("Range " ++ toString (1 : Nat) ++ " (" ++ vrng ++ "): ")) _ " rows"
      (by simp [String.data_append, List.append_assoc])
  · exact strContains_of_eq _ "Batch update completed:\nTotal updated cells: " _
      ("\nTotal updated ranges: " ++ toString (0 : Nat))
      (by simp [String.data_append, List.append_assoc])
  · simp [callTool, runTool, getSheetMetadataTool, mkToolResult, bind_ok_local,
      jfield, jfieldO, jlookup, callSheeterAPI_okNet, sheetLines, sheetLine,
      jshowO, jshowV, intercalate_singleton]
    rw [jsOrStr_of_ne]
    exact append_ne_empty_right _ " cols)" (by decide)
  · exact strContains_of_eq _ "Spreadsheet: " _
      ("\nSpreadsheet ID: " ++ msid ++ "\nLocale: " ++ mloc ++ "\nTime Zone: " ++ mtz
        ++ "\n\nSheets:\n" ++ ("• " ++ shtitle ++ " (ID: " ++ toString shid ++ ", "
          ++ toString shr ++ " rows × " ++ toString shc ++ " cols)"))
      (by simp [String.data_append, List.append_assoc])
  · exact strContains_of_eq _ ("Spreadsheet: " ++ mtitle ++ "\nSpreadsheet ID: ") _
      ("\nLocale: " ++ mloc ++ "\nTime Zone: " ++ mtz ++ "\n\nSheets:\n"
        ++ ("• " ++ shtitle ++ " (ID: " ++ toString shid ++ ", " ++ toString shr
          ++ " rows × " ++ toString shc ++ " cols)"))
      (by simp [String.data_append, List.append_assoc])

/-- C4 (amended): with more than ten data rows, `read_sheet` lists only the
first ten rows and appends a marker reporting the remaining count (length
minus ten); the marker reads `... and N more rows`, with a space after the
ellipsis. -/
theorem read_sheet_truncates_to_ten (c : Config) (sid rng : String) (rc : Int)
    (rows : List (List (String × String))) (hdrs : List String)
    (h : 10 < rows.length) :
    callTool c "read_sheet" (.obj [("sheetId", .str sid)])
        (okNet (readFixture rng rc rows hdrs)) =
      { content := ["Sheet Data from " ++ rng ++ " (" ++ toString rc
          ++ " rows):\n\nHeaders: "
          ++ jsOrStr (some (String.intercalate ", " hdrs)) "No headers"
          ++ "\n\nData:\n"
          ++ (String.intercalate "\n" (expectedRowLines 0 (rows.take 10))
              ++ ("\n... and " ++ toString ((rows.length : Int) - 10) ++ " more rows"))],
        isError := false } := by
  have h0 : 0 < rows.length := by omega
  simp [callTool, runTool, readSheetTool, mkToolResult, bind_ok_local, jfield, jlookup,
    readFixture, callSheeterAPI_okNet, readDataText, jsLenOpt, List.length_map, h, h0,
    ← List.map_take, rowLines_map, jsJoinOpt_strs, jshowO, jshowV]

/-- Witness for C4: eleven one-cell rows truncate to ten with a
`... and 1 more rows` marker. -/
theorem read_sheet_truncates_to_ten_witness :
    callTool cfg0 "read_sheet" (.obj [("sheetId", .str "S")])
        (okNet (readFixture "A:Z" 11
          (List.replicate 11 ([("a", "x")] : List (String × String))) ["h"])) =
      { content := ["Sheet Data from " ++ "A:Z" ++ " (" ++ toString (11 : Int)
          ++ " rows):\n\nHeaders: "
          ++ jsOrStr (some (String.intercalate ", " ["h"])) "No headers"
          ++ "\n\nData:\n"
          ++ (String.intercalate "\n" (expectedRowLines 0
                ((List.replicate 11 ([("a", "x")] : List (String × String))).take 10))
              ++ ("\n... and "
                ++ toString (((List.replicate 11
                    ([("a", "x")] : List (String × String))).length : Int) - 10)
                ++ " more rows"))],
        isError := false } :=
  read_sheet_truncates_to_ten cfg0 "S" "A:Z" 11
    (List.replicate 11 ([("a", "x")] : List (String × String))) ["h"] (by decide)

/-- Counterexample for C4 as stated: with exactly eleven data rows the
output carries the marker `... and 1 more rows` (space after the ellipsis)
and does not contain the claimed literal `...and 1 more rows`. -/
theorem read_sheet_marker_literal_refuted :
    callTool cfg0 "read_sheet" (.obj [("sheetId", .str "S")])
        (okNet (readFixture "A:Z" 11
          (List.replicate 11 ([("a", "x")] : List (String × String))) ["h"])) =
      { content := ["Sheet Data from A:Z (11 rows):\n\nHeaders: h\n\nData:\nRow 1: a: x\nRow 2: a: x\nRow 3: a: x\nRow 4: a: x\nRow 5: a: x\nRow 6: a: x\nRow 7: a: x\nRow 8: a: x\nRow 9: a: x\nRow 10: a: x\n... and 1 more rows"],
        isError := false } ∧
    strContains "Sheet Data from A:Z (11 rows):\n\nHeaders: h\n\nData:\nRow 1: a: x\nRow 2: a: x\nRow 3: a: x\nRow 4: a: x\nRow 5: a: x\nRow 6: a: x\nRow 7: a: x\nRow 8: a: x\nRow 9: a: x\nRow 10: a: x\n... and 1 more rows"
      "... and 1 more rows" ∧
    ¬ strContains "Sheet Data from A:Z (11 rows):\n\nHeaders: h\n\nData:\nRow 1: a: x\nRow 2: a: x\nRow 3: a: x\nRow 4: a: x\nRow 5: a: x\nRow 6: a: x\nRow 7: a: x\nRow 8: a: x\nRow 9: a: x\nRow 10: a: x\n... and 1 more rows"
      "...and 1 more rows" :=
  ⟨by decide, by decide, by decide⟩

/-- A `read_sheet` response fixture whose `data` and `headers` fields may
each be absent. -/
def readFixtureOpt (rng : String) (rc : Int) (dOpt hOpt : Option JVal) : JVal :=
  .obj ([("success", .bool true), ("range", .str rng), ("rowCount", .num rc)]
    ++ (match dOpt with | none => [] | some v => [("data", v)])
    ++ (match hOpt with | none => [] | some v => [("headers", v)]))

/-- C10: with an empty or absent data array — whatever the headers — the
`read_sheet` result is a non-error success whose data section is exactly
`No data found`; and independently, whenever the headers array is empty or
absent, the headers line reads `No headers`. -/
theorem read_sheet_empty_defaults (c : Config) (sid rng : String) (rc : Int)
    (dOpt hOpt : Option JVal) (hs : List String)
    (hd : dOpt = none ∨ dOpt = some (.arr []))
    (hh : hOpt = none ∨ hOpt = some (.arr (hs.map JVal.str))) :
    callTool c "read_sheet" (.obj [("sheetId", .str sid)])
        (okNet (readFixtureOpt rng rc dOpt hOpt)) =
      { content := ["Sheet Data from " ++ rng ++ " (" ++ toString rc
          ++ " rows):\n\nHeaders: " ++ jsOrStr (headersJoin hOpt) "No headers"
          ++ "\n\nData:\n" ++ "No data found"],
        isError := false } ∧
    strContains ("Sheet Data from " ++ rng ++ " (" ++ toString rc
      ++ " rows):\n\nHeaders: " ++ jsOrStr (headersJoin hOpt) "No headers"
      ++ "\n\nData:\n" ++ "No data found") "No data found" ∧
    ((hOpt = none ∨ hOpt = some (.arr [])) →
      jsOrStr (headersJoin hOpt) "No headers" = "No headers") := by
  refine ⟨?_, ?_, ?_⟩
  · rcases hd with rfl | rfl <;> rcases hh with rfl | rfl <;>
      simp [callTool, runTool, readSheetTool, mkToolResult, bind_ok_local, jfield,
        jlookup, readFixtureOpt, callSheeterAPI_okNet, readDataText, jsLenOpt,
        headersJoin, jsJoinOpt, jshowO, jshowV]
  · exact strContains_of_eq _ ("Sheet Data from " ++ rng ++ " (" ++ toString rc
      ++ " rows):\n\nHeaders: " ++ jsOrStr (headersJoin hOpt) "No headers"
      ++ "\n\nData:\n") _ ""
      (by simp [String.data_append, List.append_assoc, data_nil])
  · intro hempty
    rcases hempty with rfl | rfl <;> rfl

/-- Witness for C10: empty data with the nonempty header list `a` still
yields `No data found`, and the empty-headers instance gives `No headers`. -/
theorem read_sheet_empty_defaults_witness :
    callTool cfg0 "read_sheet" (.obj [("sheetId", .str "S")])
        (okNet (readFixtureOpt "R" 0 (some (.arr []))
          (some (.arr (["a"].map JVal.str))))) =
      { content := ["Sheet Data from " ++ "R" ++ " (" ++ toString (0 : Int)
          ++ " rows):\n\nHeaders: "
          ++ jsOrStr (headersJoin (some (.arr (["a"].map JVal.str)))) "No headers"
          ++ "\n\nData:\n" ++ "No data found"],
        isError := false } ∧
    strContains ("Sheet Data from " ++ "R" ++ " (" ++ toString (0 : Int)
      ++ " rows):\n\nHeaders: "
      ++ jsOrStr (headersJoin (some (.arr (["a"].map JVal.str)))) "No headers"
      ++ "\n\nData:\n" ++ "No data found") "No data found" ∧
    ((some (.arr (["a"].map JVal.str)) = (none : Option JVal) ∨
        some (.arr (["a"].map JVal.str)) = some (JVal.arr [])) →
      jsOrStr (headersJoin (some (.arr (["a"].map JVal.str)))) "No headers"
        = "No headers") :=
  read_sheet_empty_defaults cfg0 "S" "R" 0 (some (.arr []))
    (some (.arr (["a"].map JVal.str))) ["a"] (Or.inr rfl) (Or.inr rfl)

/-- C5: a successful `delete_rows` invocation with numeric `startIndex` and
`endIndex` reports the span from `startIndex` to `endIndex - 1` and a total
of `endIndex - startIndex` rows; at 2 and 5 the text carries `3 rows total`
and `2 to 4`. -/
theorem delete_rows_reports_span (c : Config) (sid : String) (j : JVal) (sI eI : Int) :
    callTool c "delete_rows"
        (.obj [("sheetId", .str sid), ("startIndex", .num sI), ("endIndex", .num eI)])
        (okNet j) =
      { content := ["Successfully deleted rows from index " ++ toString sI ++ " to "
          ++ toString (eI - 1) ++ " (" ++ toString (eI - sI) ++ " rows total)"],
        isError := false } ∧
    strContains ("Successfully deleted rows from index " ++ toString (2 : Int) ++ " to "
      ++ toString ((5 : Int) - 1) ++ " (" ++ toString ((5 : Int) - (2 : Int))
      ++ " rows total)") "3 rows total" ∧
    strContains ("Successfully deleted rows from index " ++ toString (2 : Int) ++ " to "
      ++ toString ((5 : Int) - 1) ++ " (" ++ toString ((5 : Int) - (2 : Int))
      ++ " rows total)") "2 to 4" := by
  refine ⟨rfl, by decide, by decide⟩

/-- C6: a tool name outside the ten-entry catalog yields the error-flagged
result whose text contains `Unknown tool: <name>`, through the regular
result path rather than an escaping throw. -/
theorem unknown_tool_error (c : Config) (args : JVal) (net : Net) (name : String)
    (h : name ∉ toolNames) :
    callTool c name args net =
      { content := ["Error: " ++ ("Unknown tool: " ++ name)], isError := true } ∧
    strContains ("Error: " ++ ("Unknown tool: " ++ name)) ("Unknown tool: " ++ name) := by
  simp only [toolNames, toolCatalog, List.map_cons, List.map_nil, List.mem_cons,
    List.not_mem_nil, or_false] at h
  push_neg at h
  obtain ⟨h1, h2, h3, h4, h5, h6, h7, h8, h9, h10⟩ := h
  refine ⟨?_, ?_⟩
  · simp [callTool, runTool, mkToolResult, h1, h2, h3, h4, h5, h6, h7, h8, h9, h10]
  · exact strContains_of_eq _ "Error: " _ ""
      (by simp [String.data_append])

/-- Witness for C6: calling the unregistered name `delete_sheet`. -/
theorem unknown_tool_error_witness :
    callTool cfg0 "delete_sheet" (.obj []) (okNet .null) =
      { content := ["Error: " ++ ("Unknown tool: " ++ "delete_sheet")], isError := true } ∧
    strContains ("Error: " ++ ("Unknown tool: " ++ "delete_sheet"))
      ("Unknown tool: " ++ "delete_sheet") :=
  unknown_tool_error cfg0 (.obj []) (okNet .null) "delete_sheet" (by decide)

/-- C7: listing tools consumes no input, has no effect, and returns the
static catalog, whose names and required-argument lists are exactly the
ten documented ones. -/
theorem tool_catalog_static :
    listTools () = toolCatalog ∧
    toolCatalog.map (fun t => (t.name, t.required)) =
      [("create_spreadsheet", ["title"]),
       ("read_sheet", ["sheetId"]),
       ("write_sheet", ["sheetId", "range", "values"]),
       ("append_to_sheet", ["sheetId", "values"]),
       ("clear_range", ["sheetId", "range"]),
       ("batch_get_ranges", ["sheetId", "ranges"]),
       ("batch_update_ranges", ["sheetId", "data"]),
       ("get_sheet_metadata", ["sheetId"]),
       ("delete_rows", ["sheetId", "startIndex", "endIndex"]),
       ("batch_update_spreadsheet", ["sheetId", "requests"])] ∧
    toolCatalog.length = 10 :=
  ⟨rfl, rfl, rfl⟩

/-- C8: the `get_sheet_metadata` branch is deterministic — two invocations
with the same arguments against the same network produce identical
results. -/
theorem metadata_idempotent (c : Config) (args : JVal) (net : Net) (r1 r2 : ToolResult)
    (h1 : r1 = callTool c "get_sheet_metadata" args net)
    (h2 : r2 = callTool c "get_sheet_metadata" args net) : r1 = r2 :=
  h1.trans h2.symm

/-- Witness for C8: two concrete identical invocations agree. -/
theorem metadata_idempotent_witness :
    callTool cfg0 "get_sheet_metadata" fullArgs (okNet (.obj [("spreadsheetId", .str "S")])) =
      callTool cfg0 "get_sheet_metadata" fullArgs (okNet (.obj [("spreadsheetId", .str "S")])) :=
  metadata_idempotent cfg0 fullArgs (okNet (.obj [("spreadsheetId", .str "S")]))
    (callTool cfg0 "get_sheet_metadata" fullArgs (okNet (.obj [("spreadsheetId", .str "S")])))
    (callTool cfg0 "get_sheet_metadata" fullArgs (okNet (.obj [("spreadsheetId", .str "S")])))
    rfl rfl

/-- C9: the success texts of `delete_rows` and `batch_update_spreadsheet`
never inspect the response body — any two successful responses produce the
same result for the same arguments. -/
theorem response_independent_formatting (c : Config) (args : JVal) (j1 j2 : JVal) :
    callTool c "delete_rows" args (okNet j1) = callTool c "delete_rows" args (okNet j2) ∧
    callTool c "batch_update_spreadsheet" args (okNet j1) =
      callTool c "batch_update_spreadsheet" args (okNet j2) :=
  ⟨rfl, rfl⟩

end Sheeter
